import Mathlib

/-!
Verification development for the emailComplainAutomation repository.

The Python sources are shallowly embedded as executable Lean definitions:
text is handled as `String` / `List Char`, timestamps are abstract values
(`Nat` for clock readings, ISO strings kept verbatim), the SQLite table is a
`List ComplaintRec`, and the remote model endpoint is an oracle argument.
Library calls (`json.loads`, the two `re` patterns, `str.strip`, `str.lower`,
`int(...)`) are modelled by explicit executable functions covering the
fragment of their behaviour the repository exercises.
-/

namespace EmailComplaint

/-! Section: Text primitives (models of the Python `str` operations used) -/

/-- Model of the character class matched by `\s` in the two `re` patterns and
stripped by `str.strip()`: ASCII whitespace (the repository only handles ASCII
text, so the Unicode cases of the Python originals never arise). -/
def isWs (c : Char) : Bool :=
  c == ' ' || c == '\t' || c == '\n' || c == '\r' || c == '\x0b' || c == '\x0c'

/-- Model of `str.strip()` on a character list. -/
def pyStrip (cs : List Char) : List Char :=
  ((cs.dropWhile isWs).reverse.dropWhile isWs).reverse

/-- Model of `str.lower()` on a character list (ASCII). -/
def pyLowerData (s : String) : List Char :=
  s.data.map Char.toLower

/-- `startsWithL n h` holds when `n` occurs at the front of `h`. -/
def startsWithL : List Char → List Char → Bool
  | [], _ => true
  | _ :: _, [] => false
  | a :: as, b :: bs => a == b && startsWithL as bs

/-- Model of the Python substring test `needle in hay`. -/
def containsL (needle : List Char) : List Char → Bool
  | [] => startsWithL needle []
  | c :: rest => startsWithL needle (c :: rest) || containsL needle rest

/-- Decimal digits of a natural number, most significant first. -/
def natDigits (n : Nat) : List Char := Nat.toDigits 10 n

/-- Model of the Python format specifier `:06d` (zero padding to width 6). -/
def zeroPad6 (n : Nat) : List Char :=
  let d := natDigits n
  List.replicate (6 - d.length) '0' ++ d

/-- Numeric value of a digit list (used only on all-digit input). -/
def digitsVal (cs : List Char) : Nat :=
  cs.foldl (fun a c => a * 10 + (c.toNat - 48)) 0

/-- Model of Python `int(s)` for the strings this code feeds it (optionally
whitespace-padded digit runs); everything else raises `ValueError`, modelled
as `none`. -/
def pyInt (cs : List Char) : Option Nat :=
  let t := pyStrip cs
  if t ≠ [] ∧ t.all Char.isDigit then some (digitsVal t) else none

/-- Model of `str.split(sep)` for a one-character separator. -/
def splitOnCharL (sep : Char) : List Char → List (List Char)
  | [] => [[]]
  | c :: rest =>
      let r := splitOnCharL sep rest
      if c == sep then [] :: r
      else match r with
           | [] => [[c]]
           | p :: ps => (c :: p) :: ps

/-! Section: A model of `json.loads`

Covers the JSON fragment exercised by the analyzer's replies: objects,
arrays, strings with the simple backslash escapes, integer numbers and the
three literals.  `\uXXXX` escapes and fractional/exponent numbers are outside
the modelled fragment (they never occur in the texts this development
evaluates); on those the model fails where `json.loads` would succeed, which
never changes an outcome below. -/

inductive Json where
  | null
  | bool (b : Bool)
  | num (n : Int)
  | str (s : String)
  | arr (xs : List Json)
  | obj (kvs : List (String × Json))

def openBrace : Char := '\x7b'
def closeBrace : Char := '\x7d'

/-- The two-character string escapes of the JSON grammar, as a lookup table
from the character after the backslash to the character it denotes. -/
def jsonEscTable : List (Char × Char) :=
  [('"', '"'), ('\\', '\\'), ('/', '/'), ('n', '\n'),
   ('t', '\t'), ('r', '\r'), ('b', '\x08'), ('f', '\x0c')]

def jsonEsc (c : Char) : Option Char :=
  (jsonEscTable.find? (fun pr => pr.1 == c)).map (fun pr => pr.2)

/-- Parse a JSON string body (the opening quote already consumed). -/
def parseStrLit (acc : List Char) : List Char → Option (String × List Char)
  | [] => none
  | '"' :: r => some (String.mk acc.reverse, r)
  | '\\' :: e :: r2 =>
      match jsonEsc e with
      | some ch => parseStrLit (ch :: acc) r2
      | none => none
  | '\\' :: [] => none
  | c :: r => if c.toNat < 32 then none else parseStrLit (c :: acc) r

def skipJsonWs (cs : List Char) : List Char :=
  cs.dropWhile (fun c => c == ' ' || c == '\t' || c == '\n' || c == '\r')

/-- The five grammatical positions of the recursive-descent parser:
a value, an object body or member list (after `{`), an array body or
item list (after `[`). -/
inductive PTask where
  | value
  | objBody
  | members
  | arrBody
  | items

/-- One fuel-indexed recursive-descent parser for the modelled JSON
fragment; fuel only bounds the nesting of recursive positions and is chosen
large enough at the top entry (`jsonLoads`) for every input considered. -/
def parseStep : Nat → PTask → List Char → Option (Json × List Char)
  | 0, _, _ => none
  | fuel + 1, .value, cs =>
    (match skipJsonWs cs with
     | [] => none
     | c :: rest =>
       if c == openBrace then parseStep fuel .objBody rest
       else if c == '[' then parseStep fuel .arrBody rest
       else if c == '"' then
         match parseStrLit [] rest with
         | some (s, r) => some (.str s, r)
         | none => none
       else if c == '-' then
         match rest.span Char.isDigit with
         | (ds, r) => if ds = [] then none else some (.num (-(digitsVal ds : Int)), r)
       else if c.isDigit then
         match (c :: rest).span Char.isDigit with
         | (ds, r) => some (.num (digitsVal ds), r)
       else if startsWithL "true".data (c :: rest) then some (.bool true, rest.drop 3)
       else if startsWithL "false".data (c :: rest) then some (.bool false, rest.drop 4)
       else if startsWithL "null".data (c :: rest) then some (.null, rest.drop 3)
       else none)
  | fuel + 1, .objBody, cs =>
    (match skipJsonWs cs with
     | [] => none
     | c :: rest =>
       if c == closeBrace then some (.obj [], rest)
       else parseStep fuel .members (c :: rest))
  | fuel + 1, .members, cs =>
    (match skipJsonWs cs with
     | '"' :: rest =>
       (match parseStrLit [] rest with
        | none => none
        | some (k, r1) =>
          match skipJsonWs r1 with
          | ':' :: r2 =>
            (match parseStep fuel .value r2 with
             | none => none
             | some (v, r3) =>
               match skipJsonWs r3 with
               | ',' :: r4 =>
                 (match parseStep fuel .members r4 with
                  | some (.obj kvs, r5) => some (.obj ((k, v) :: kvs), r5)
                  | _ => none)
               | c :: r4 =>
                 if c == closeBrace then some (.obj [(k, v)], r4) else none
               | [] => none)
          | _ => none)
     | _ => none)
  | fuel + 1, .arrBody, cs =>
    (match skipJsonWs cs with
     | [] => none
     | c :: rest =>
       if c == ']' then some (.arr [], rest)
       else parseStep fuel .items (c :: rest))
  | fuel + 1, .items, cs =>
    (match parseStep fuel .value cs with
     | none => none
     | some (v, r1) =>
       match skipJsonWs r1 with
       | ',' :: r2 =>
         (match parseStep fuel .items r2 with
          | some (.arr xs, r3) => some (.arr (v :: xs), r3)
          | _ => none)
       | ']' :: r2 => some (.arr [v], r2)
       | _ => none)

/-- Model of `json.loads`: parse one value and require only whitespace after
it (on trailing data `json.loads` raises, modelled as `none`). -/
def jsonLoads (cs : List Char) : Option Json :=
  match parseStep (3 * cs.length + 9) .value cs with
  | some (v, rest) => if skipJsonWs rest = [] then some v else none
  | none => none

/-- Python `str()` rendering of an atomic decoded JSON value. -/
def pyShowAtom : Json → String
  | .null => "None"
  | .bool true => "True"
  | .bool false => "False"
  | .num n =>
      if n < 0 then String.mk ('-' :: natDigits n.natAbs) else String.mk (natDigits n.natAbs)
  | .str s => s
  | .arr _ => "[...]"
  | .obj _ => String.mk [openBrace, '.', '.', '.', closeBrace]

/-- Python `repr()` of an atomic decoded JSON value (list elements are
rendered with `repr`, so strings get single quotes). -/
def pyReprAtom : Json → String
  | .str s => String.mk (Char.ofNat 39 :: s.data ++ [Char.ofNat 39])
  | j => pyShowAtom j

/-- Python `str()` rendering of a decoded JSON value, used only to build the
retry / failure message strings.  It is exact for every value this code ever
renders (strings, and lists of strings); nesting deeper than one level is
abbreviated. -/
def pyShow : Json → String
  | .str s => s
  | .arr xs => String.mk ('[' :: (String.intercalate ", " (xs.map pyReprAtom)).data ++ [']'])
  | .obj kvs =>
      String.mk (openBrace :: (String.intercalate ", "
        (kvs.map (fun kv => String.mk ((pyReprAtom (.str kv.1)).data ++ ':' :: ' ' :: (pyReprAtom kv.2).data)))).data ++ [closeBrace])
  | j => pyShowAtom j

/-! Section: Model of `AIAnalyzer._extract_json_from_text` (src/ai_analyzer.py 62-127)

The numbered-point pattern `(?:1|2|3)\.\s*(.*?)(?=(?:1|2|3)\.|$)` (DOTALL) is
modelled by a three-state scanner over the character list: searching for a
`1.`/`2.`/`3.` match start, greedily consuming the `\s*` run, then lazily
collecting group 1 up to the next `1.`/`2.`/`3.` lookahead or the end of the
text (`$` also matches just before a final newline).  `re.finditer` resumes
at the end of the lazy group, which is exactly where the next match begins. -/

inductive ScanState where
  | searching
  | wsSkip
  | collect (acc : List Char)

def pointDigit (c : Char) : Bool := c == '1' || c == '2' || c == '3'

def scanAux : ScanState → List Char → List (List Char)
  | .searching, [] => []
  | .searching, c :: '.' :: cs2 =>
      if pointDigit c then scanAux .wsSkip cs2
      else scanAux .searching cs2
  | .searching, _ :: cs => scanAux .searching cs
  | .wsSkip, [] => [[]]
  | .wsSkip, c :: '.' :: cs2 =>
      if isWs c then scanAux (.collect ['.']) cs2
      else if pointDigit c then [] :: scanAux .wsSkip cs2
      else scanAux (.collect ['.', c]) cs2
  | .wsSkip, c :: cs =>
      if isWs c then scanAux .wsSkip cs else scanAux (.collect [c]) cs
  | .collect acc, [] => [acc.reverse]
  | .collect acc, ['\n'] => [acc.reverse]
  | .collect acc, c :: '.' :: cs2 =>
      if pointDigit c then acc.reverse :: scanAux .wsSkip cs2
      else scanAux (.collect ('.' :: c :: acc)) cs2
  | .collect acc, c :: cs => scanAux (.collect (c :: acc)) cs

/-- All group-1 captures of the numbered-point pattern over the text, in
match order. -/
def scanPoints (cs : List Char) : List (List Char) := scanAux .searching cs

/-- Model of one `for match in re.finditer(...)` loop of
`_extract_json_from_text`: append `f"{len+1}. {point}"` for each stripped,
non-empty capture of length `< 100`, as long as fewer than 3 points were
collected (the loop keeps iterating but appends nothing once it has 3). -/
def collectPoints : List (List Char) → List String → List String
  | [], acc => acc
  | g :: gs, acc =>
      if acc.length < 3 then
        (let point := pyStrip g
         if point ≠ [] ∧ point.length < 100 then
           collectPoints gs (acc ++ [String.mk (natDigits (acc.length + 1) ++ '.' :: ' ' :: point)])
         else collectPoints gs acc)
      else collectPoints gs acc

/-- Model of the `while len(xs) < 3: xs.append(f"{len(xs)+1}. <ph>")` padding
loop; three fuel steps always suffice since each iteration grows the list. -/
def padLoop (ph : List Char) : Nat → List String → List String
  | 0, ps => ps
  | fuel + 1, ps =>
      if ps.length < 3 then
        padLoop ph fuel (ps ++ [String.mk (natDigits (ps.length + 1) ++ '.' :: ' ' :: ph)])
      else ps

def firstIdx (p : Char → Bool) : List Char → Option Nat
  | [] => none
  | c :: cs => if p c then some 0 else (firstIdx p cs).map (· + 1)

/-- Model of `re.search(r'\{[\s\S]*\}', text)`: the greedy pattern matches
from the first `{` of the text to the last `}`, provided the latter comes
after the former; otherwise there is no match. -/
def greedySpan (cs : List Char) : Option (List Char) :=
  match firstIdx (· == openBrace) cs, (firstIdx (· == closeBrace) cs.reverse).map (fun k => cs.length - 1 - k) with
  | some i, some j => if i < j then some ((cs.drop i).take (j - i + 1)) else none
  | _, _ => none

/-- What `_extract_json_from_text` returns, as consumed by its callers via
`result["root_cause"]`, `result["suggested_solution"]` and the
`"error" in result` marker test. -/
structure AnalysisDict where
  root_cause : Json
  suggested_solution : Json
  error : Option String

/-- Python dict lookup for the decoded object (`json.loads` keeps the last
occurrence of a duplicated key). -/
def objGet (k : String) (kvs : List (String × Json)) : Option Json :=
  (kvs.reverse.find? (fun kv => kv.1 == k)).map (fun kv => kv.2)

def isArr3 : Json → Bool
  | .arr xs => xs.length == 3
  | _ => false

/-- The direct-JSON attempt of `_extract_json_from_text`: search the greedy
brace span, decode it, and accept only a dict carrying both keys with
exactly-3-element list values; a decode error or failed validation falls
through (`except: pass`) to the manual point extraction. -/
def jsonAttempt (text : String) : Option AnalysisDict :=
  match greedySpan text.data with
  | none => none
  | some span =>
    match jsonLoads span with
    | some (.obj kvs) =>
        (match objGet "root_cause" kvs, objGet "suggested_solution" kvs with
         | some rc, some sol =>
             if isArr3 rc && isArr3 sol then
               some { root_cause := rc, suggested_solution := sol,
                      error := (objGet "error" kvs).map pyShow }
             else none
         | _, _ => none)
    | _ => none

def emptyRespDict : AnalysisDict :=
  { root_cause := .arr [.str "1. Error: Empty response", .str "2. Please try again", .str "3. System error"],
    suggested_solution := .arr [.str "1. Retry analysis", .str "2. Check input", .str "3. Contact support"],
    error := some "Empty response" }

/-- The first `re.finditer` loop of `_extract_json_from_text` (root causes). -/
def extractRootPoints (text : String) : List String :=
  collectPoints (scanPoints text.data) []

/-- The second `re.finditer` loop of `_extract_json_from_text` (solutions);
the source applies the identical pattern to the same text. -/
def extractSolutionPoints (text : String) : List String :=
  collectPoints (scanPoints text.data) []

/-- Model of `AIAnalyzer._extract_json_from_text`.  The surrounding
`try/except` of the source only converts raised exceptions into an error
dict; the modelled operations are total, so that handler is dead here. -/
def extract_json_from_text (text : String) : AnalysisDict :=
  if (pyStrip text.data).length < 20 then emptyRespDict
  else
    match jsonAttempt text with
    | some d => d
    | none =>
        { root_cause := .arr ((padLoop "Analysis incomplete".data 3 (extractRootPoints text)).map .str),
          suggested_solution := .arr ((padLoop "Solution pending".data 3 (extractSolutionPoints text)).map .str),
          error := none }

/-! Section: Model of `AIAnalyzer.analyze_complaint` (src/ai_analyzer.py 129-214)

One outbound `requests.post` is an oracle outcome: the call raises
(`transportError`, caught by the outer `except`), returns a non-200 status
(`httpError`, with the already-rendered error detail of lines 191-196),
returns 200 but reading the envelope raises (`envelopeError`, the inner
`except` of lines 185-189), or yields the reply content string (`ok`;
an absent `choices/message/content` chain defaults to `""`). -/

inductive Attempt where
  | transportError (msg : String)
  | httpError (code : Nat) (detail : String)
  | envelopeError (msg : String)
  | ok (content : String)

/-- The analyzer result dict as its callers consume it. -/
structure AnalyzeResult where
  root_cause : Json
  suggested_solution : Json
  importance_level : Option String
  error : Option String

def natStr (n : Nat) : String := String.mk (natDigits n)

/-- One iteration of the retry loop: either a returned result or the
`last_error` recorded for the retry. -/
def attemptStep (a : Attempt) : Except String AnalyzeResult :=
  match a with
  | .transportError m => .error (String.mk ("System Error: ".data ++ m.data))
  | .httpError code detail =>
      .error (String.mk ("API Error: HTTP ".data ++ (natStr code).data ++ ": ".data ++ detail.data))
  | .envelopeError m => .error (String.mk ("Error processing response: ".data ++ m.data))
  | .ok content =>
      if content.data = [] then .error "Empty response from AI"
      else
        (let r := extract_json_from_text content
         match r.error with
         | none => .ok { root_cause := r.root_cause, suggested_solution := r.suggested_solution,
                         importance_level := none, error := none }
         | some e => .error e)

/-- `f"{last_error}"` (the loop always ran, so `None` never actually shows). -/
def showLastErr : Option String → String
  | none => "None"
  | some e => e

/-- The dict returned once all retries are exhausted. -/
def exhaustedResult (lastErr : Option String) : AnalyzeResult :=
  { root_cause := .str "Failed after 3 attempts",
    suggested_solution := .str (String.mk ("Last error: ".data ++ (showLastErr lastErr).data)),
    importance_level := some "Medium",
    error := none }

/-- The `while retry_count < self.max_retries` loop; `i` is the index of the
next attempt, the `Nat` result counts the `requests.post` calls made. -/
def analyzeAux (env : Nat → Attempt) (i : Nat) : Nat → Option String → AnalyzeResult × Nat
  | 0, lastErr => (exhaustedResult lastErr, 0)
  | n + 1, _ =>
      match attemptStep (env i) with
      | .ok r => (r, 1)
      | .error e =>
          (let p := analyzeAux env (i + 1) n (some e)
           (p.1, p.2 + 1))

def emptyComplaintResult : AnalyzeResult :=
  { root_cause := .str "Empty complaint",
    suggested_solution := .str "No content to analyze",
    importance_level := some "Medium",
    error := none }

/-- Model of `AIAnalyzer.analyze_complaint` (`max_retries = 3`). -/
def analyze_complaint (env : Nat → Attempt) (complaint_text : String) : AnalyzeResult × Nat :=
  if pyStrip complaint_text.data = [] then (emptyComplaintResult, 0)
  else analyzeAux env 0 3 none

/-! Section: Model of the store (src/database.py)

The SQLite table is a `List ComplaintRec` in insertion order.  Timestamps:
`received_at` keeps the ISO string it was built from (every caller passes
`datetime.now().isoformat()`, which `datetime.fromisoformat` accepts), and
the `datetime.utcnow()` readings taken inside the store operations are an
explicit `now : Nat` argument. -/

inductive ProcessStatus where
  | PENDING
  | SUCCESSFUL
  | FAILED
  | CLOSED
deriving DecidableEq, Repr

inductive ImportanceLevel where
  | LOW
  | MEDIUM
  | HIGH
  | CRITICAL
deriving DecidableEq, Repr

/-- One row of the `complaints` table.  The descriptive fields are plain
strings: every record reaching this store comes from `add_complaint` fed by
the sheet extractor, which supplies a string (default `""`) for each. -/
structure ComplaintRec where
  id : String
  name : String
  email : String
  contact_number : String
  order_id : String
  product_name : String
  purchase_date : String
  complaint_category : String
  description : String
  photo_proof_link : String
  importance_level : Option ImportanceLevel
  received_at : String
  processed : ProcessStatus
  root_cause : Option String
  suggested_solution : Option String
  processed_at : Option Nat
deriving DecidableEq, Repr

/-- The dict built per sheet row by `get_complaints_data`
(src/complain_extractor.py 64-77): all fields are strings (missing sheet
columns default to `""`) and `importance_level` is `None`. -/
structure ComplaintData where
  id : String
  name : String
  email : String
  contact_number : String
  order_id : String
  product_name : String
  purchase_date : String
  complaint_category : String
  description : String
  photo_proof_link : String
  importance_level : Option ImportanceLevel
  received_at : String
deriving DecidableEq, Repr

/-- Replace the first element satisfying `p` (SQLAlchemy `.first()` followed
by a mutation touches exactly that row). -/
def updateFirst (p : ComplaintRec → Bool) (f : ComplaintRec → ComplaintRec) :
    List ComplaintRec → List ComplaintRec
  | [] => []
  | x :: xs => if p x then f x :: xs else x :: updateFirst p f xs

/-- Model of `Database.add_complaint` (src/database.py 63-102).  The lookup
is by `id` only.  On a new id the create branch builds the row with
`datetime.fromisoformat(received_at)` (every caller passes
`datetime.now().isoformat()`, which parses), commits, and returns `True`.
On an existing id the update branch copies every dict entry onto the row
with `setattr` — including the raw ISO *string* into the `DateTime` column
`received_at` — then resets the lifecycle fields; at `session.commit()` the
SQLite `DateTime` bind processor refuses the string value and raises, so
the `except` branch rolls the session back and the call returns `False`
with the table unchanged.  Since the dict always carries a string
`received_at`, the update branch deterministically takes this error path.
-/
def add_complaint (store : List ComplaintRec) (d : ComplaintData) : Bool × List ComplaintRec :=
  match store.find? (fun c => c.id == d.id) with
  | some _ => (false, store)
  | none =>
      (true, store ++ [{ id := d.id, name := d.name, email := d.email,
                         contact_number := d.contact_number, order_id := d.order_id,
                         product_name := d.product_name, purchase_date := d.purchase_date,
                         complaint_category := d.complaint_category, description := d.description,
                         photo_proof_link := d.photo_proof_link,
                         importance_level := some .MEDIUM, received_at := d.received_at,
                         processed := .PENDING, root_cause := none,
                         suggested_solution := none, processed_at := none }])

/-- Model of `Database.get_unprocessed_complaints` (src/database.py 104-110). -/
def get_unprocessed_complaints (store : List ComplaintRec) : List ComplaintRec :=
  store.filter (fun c => c.processed == .PENDING)

def high_importance_keywords : List String :=
  ["safety", "health", "medical", "surgical", "critical", "urgent",
   "emergency", "dangerous", "harmful", "injury", "infection", "contamination",
   "defective", "broken", "damaged", "faulty", "unsafe"]

def critical_keywords : List String :=
  ["life-threatening", "death", "fatal", "severe injury", "major safety",
   "recall", "contamination", "toxic", "poisonous", "explosive"]

/-- `f"{description} {root_cause} {suggested_solution}".lower()` — note the
category is not part of the scanned text. -/
def textToCheck (desc rc sol : String) : List Char :=
  pyLowerData (desc ++ " " ++ rc ++ " " ++ sol)

def kwIn (t : List Char) (kw : String) : Bool := containsL kw.data t

/-- Model of `Database._determine_importance_level` (src/database.py 112-145;
`textToCheck` is the `text_to_check` local, referenced by both scans). -/
def determine_importance_level (complaint_category desc rc sol : String) : ImportanceLevel :=
  if critical_keywords.any (kwIn (textToCheck desc rc sol)) then .CRITICAL
  else if 2 ≤ high_importance_keywords.countP (kwIn (textToCheck desc rc sol)) then .HIGH
  else if ["safety issue", "medical device", "pharmaceutical"].contains
            (String.mk (pyLowerData complaint_category)) then .HIGH
  else .MEDIUM

def resolution_keywords : List String :=
  ["replaced", "refunded", "exchanged", "fixed", "resolved", "completed",
   "delivered", "shipped", "corrected", "addressed", "handled", "processed",
   "compensated", "reimbursed", "apologized", "acknowledged", "investigated"]

def immediate_action_keywords : List String :=
  ["immediately", "urgently", "right away", "asap", "promptly",
   "dispatched", "sent", "issued", "provided", "offered"]

def quick_resolution_categories : List String :=
  ["delivery issue", "billing issue", "order issue", "product issue"]

/-- Model of `Database._should_auto_close` (src/database.py 147-181); only
the solution text and the category are actually inspected. -/
def should_auto_close (complaint_category _desc _rc sol : String) : Bool :=
  let solution_text := pyLowerData sol
  let resolution_count := resolution_keywords.countP (kwIn solution_text)
  let immediate_count := immediate_action_keywords.countP (kwIn solution_text)
  if 2 ≤ resolution_count || 1 ≤ immediate_count then true
  else if quick_resolution_categories.contains (String.mk (pyLowerData complaint_category))
          && 1 ≤ resolution_count then true
  else false

/-- The `importance_level` argument of `update_complaint_analysis` may be
absent, a string, or an enum value. -/
inductive ImpParam where
  | str (s : String)
  | lvl (l : ImportanceLevel)
deriving DecidableEq, Repr

/-- `ImportanceLevel(value)` — lookup by enum value, `ValueError` as `none`. -/
def importanceOfValue (s : String) : Option ImportanceLevel :=
  if s = "Low" then some .LOW
  else if s = "Medium" then some .MEDIUM
  else if s = "High" then some .HIGH
  else if s = "Critical" then some .CRITICAL
  else none

/-- Model of `Database.update_complaint_analysis` (src/database.py 183-232). -/
def update_complaint_analysis (store : List ComplaintRec) (complaint_id : String)
    (rc sol : String) (imp : Option ImpParam) (now : Nat) : Bool × List ComplaintRec :=
  match store.find? (fun c => c.id == complaint_id) with
  | none => (false, store)
  | some c =>
      let newStatus := if should_auto_close c.complaint_category c.description rc sol
                       then ProcessStatus.CLOSED else ProcessStatus.SUCCESSFUL
      let lvl := match imp with
        | none => determine_importance_level c.complaint_category c.description rc sol
        | some (.str s) => (importanceOfValue s).getD .MEDIUM
        | some (.lvl l) => l
      (true, updateFirst (fun c => c.id == complaint_id)
        (fun c => { c with root_cause := some rc, suggested_solution := some sol,
                           processed := newStatus, processed_at := some now,
                           importance_level := some lvl })
        store)

/-- Model of `Database.manually_close_complaint` (src/database.py 234-254). -/
def manually_close_complaint (store : List ComplaintRec) (complaint_id : String)
    (closure_reason : String) (now : Nat) : Bool × List ComplaintRec :=
  match store.find? (fun c => c.id == complaint_id) with
  | none => (false, store)
  | some _ =>
      (true, updateFirst (fun c => c.id == complaint_id)
        (fun c =>
          let keep := match c.suggested_solution with
            | none => false
            | some s => s ≠ "" && containsL "closed".data (pyLowerData s)
          let newSol :=
            if keep then c.suggested_solution
            else
              (let current := (c.suggested_solution.getD "")
               some (String.mk (current.data ++ '\n' :: '\n' :: closure_reason.data)))
          { c with processed := .CLOSED, processed_at := some now,
                   suggested_solution := newSol })
        store)

/-- Model of `Database.mark_complaint_failed` (src/database.py 265-283). -/
def mark_complaint_failed (store : List ComplaintRec) (complaint_id : String)
    (error_message : String) (now : Nat) : Bool × List ComplaintRec :=
  match store.find? (fun c => c.id == complaint_id) with
  | none => (false, store)
  | some _ =>
      (true, updateFirst (fun c => c.id == complaint_id)
        (fun c => { c with processed := .FAILED, root_cause := some "Processing Error",
                           suggested_solution := some error_message,
                           processed_at := some now })
        store)

/-! Section: Model of the processing loops (src/complaint_processor.py, src/main.py)

The analysis outcome for a complaint is an oracle `envr : String →
AnalyzeResult` keyed by complaint id (one deterministic value per complaint:
`analyze_complaint` already contains the inner retry loop, and the
`backoff`-decorated wrapper re-runs it on an exception, so with a fixed
oracle a raising complaint raises on every outer try as well). -/

/-- The Python test `"API Error" in analysis.get('root_cause', '')`:
substring containment when the value is a string, element membership when it
is a list (the only shapes `analyze_complaint` produces). -/
def apiErrorIn : Json → Bool
  | .str s => containsL "API Error".data s.data
  | .arr xs => xs.any (fun j => match j with | .str s => s == "API Error" | _ => false)
  | _ => false

/-- `'\n'.join(value)` when the value is a list, the value itself when it is
a string.  A list with a non-string member makes `join` raise `TypeError`
(`none`); other shapes never reach this point and are rendered via `str`. -/
def joinVal : Json → Option String
  | .str s => some s
  | .arr xs =>
      if xs.all (fun j => match j with | .str _ => true | _ => false) then
        some (String.intercalate "\n" (xs.filterMap
          (fun j => match j with | .str s => some s | _ => none)))
      else none
  | j => some (pyShow j)

/-- The body of the per-complaint loop of `process_complaints` /
`process_pending_and_failed_complaints`: raise-and-mark-failed when the
result carries "API Error" in its root cause (`_analyze_single_complaint`),
otherwise join the two fields and store them via
`update_complaint_analysis`; any exception in the body falls into the
`except` branch, which calls `mark_complaint_failed`. -/
def processOne (now : Nat) (r : AnalyzeResult) (cid : String)
    (store : List ComplaintRec) : List ComplaintRec :=
  if apiErrorIn r.root_cause then
    (mark_complaint_failed store cid
      (String.mk ("Failed to process after 3 attempts: API Error: ".data
        ++ (pyShow r.suggested_solution).data)) now).2
  else
    match joinVal r.root_cause, joinVal r.suggested_solution with
    | some rc, some sol => (update_complaint_analysis store cid rc sol none now).2
    | _, _ =>
        (mark_complaint_failed store cid
          ("Failed to process after 3 attempts: TypeError: sequence item: expected str instance") now).2

/-- Model of `ComplaintProcessor.process_complaints` (src/complaint_processor.py
22-88): iterate over the PENDING records selected up front. -/
def process_complaints (envr : String → AnalyzeResult) (now : Nat)
    (store : List ComplaintRec) : List ComplaintRec :=
  (get_unprocessed_complaints store).foldl
    (fun st c => processOne now (envr c.id) c.id st) store

/-- Model of `ComplaintProcessor.process_pending_and_failed_complaints`
(src/complaint_processor.py 90-187): same body over the records whose status
is PENDING or FAILED. -/
def process_pending_and_failed_complaints (envr : String → AnalyzeResult) (now : Nat)
    (store : List ComplaintRec) : List ComplaintRec :=
  (store.filter (fun c => c.processed == .PENDING || c.processed == .FAILED)).foldl
    (fun st c => processOne now (envr c.id) c.id st) store

/-- Model of `ComplaintAnalysisSystem.reset_processed_complaints`
(src/main.py 141-179): the two status-filtered bulk updates (the attribute
chain `self.db.Complaint` is read as the `Complaint` mapped class), returning
the two counts it reports. -/
def reset_processed_complaints (store : List ComplaintRec) :
    List ComplaintRec × Nat × Nat :=
  let successful_count := store.countP (fun c => c.processed == .SUCCESSFUL)
  let failed_count := store.countP (fun c => c.processed == .FAILED)
  (store.map (fun c =>
      if c.processed == .SUCCESSFUL || c.processed == .FAILED then
        { c with processed := .PENDING, processed_at := none,
                 root_cause := none, suggested_solution := none }
      else c),
   successful_count, failed_count)

/-! Section: Model of the ingestion side (src/complain_extractor.py) -/

/-- `f"COMP-{(n):06d}"`. -/
def compFormat (n : Nat) : String := String.mk ("COMP-".data ++ zeroPad6 n)

/-- Modelled from the spec: `Database.get_next_complaint_id` is called by
`get_complaints_data` (src/complain_extractor.py 54) but is not defined in
the `Database` class present in `src/database.py`.  Spec section 4.3,
`nextId()`: scan existing records for the maximum numeric suffix matching
the `COMP-######` pattern and return that value + 1 zero-padded; return the
number-1 id when the store is empty or no record matches; parse failures on
malformed ids count as "no number found", not an error. -/
def compSuffix (s : String) : Option Nat :=
  match splitOnCharL '-' s.data with
  | [p, ds] =>
      if p = "COMP".data ∧ ds ≠ [] ∧ ds.all Char.isDigit then some (digitsVal ds) else none
  | _ => none

/-- Modelled from the spec (see `compSuffix`): the store's next-id operation. -/
def get_next_complaint_id (store : List ComplaintRec) : String :=
  compFormat ((store.filterMap (fun c => compSuffix c.id)).foldl max 0 + 1)

/-- Lines 54-59 of src/complain_extractor.py: parse the number back out of
`starting_id.split('-')[1]`, falling back to 1 on `IndexError`/`ValueError`. -/
def startingNumber (store : List ComplaintRec) : Nat :=
  match (splitOnCharL '-' (get_next_complaint_id store).data).get? 1 with
  | some part => (pyInt part).getD 1
  | none => 1

/-- One raw sheet row as the extractor reads it: `record.get(header, "")`
for each of the nine mapped headers. -/
structure Row where
  name : String
  email : String
  contact_number : String
  order_id : String
  product_name : String
  purchase_date : String
  complaint_category : String
  description : String
  photo_proof_link : String
deriving DecidableEq, Repr

/-- Model of the id-assignment half of `get_complaints_data`
(src/complain_extractor.py 51-78, the `db_instance` branch): ids are
`COMP-{starting_number + i:06d}` for row index `i`, `received_at` is the
ingestion-time ISO string, `importance_level` is `None`. -/
def get_complaints_data (store : List ComplaintRec) (rows : List Row)
    (nowIso : String) : List ComplaintData :=
  rows.enum.map (fun p =>
    { id := compFormat (startingNumber store + p.1),
      name := p.2.name, email := p.2.email, contact_number := p.2.contact_number,
      order_id := p.2.order_id, product_name := p.2.product_name,
      purchase_date := p.2.purchase_date, complaint_category := p.2.complaint_category,
      description := p.2.description, photo_proof_link := p.2.photo_proof_link,
      importance_level := none, received_at := nowIso })

/-! Section: Concrete instances used by the evaluation theorems -/

/-- One well-formed sheet-derived complaint dict. -/
def demoData : ComplaintData :=
  { id := "COMP-000001", name := "Alice", email := "a@b.c", contact_number := "",
    order_id := "ORD-77", product_name := "Lamp", purchase_date := "",
    complaint_category := "General Inquiry",
    description := "The item did not match the photos on the site",
    photo_proof_link := "", importance_level := none,
    received_at := "2024-01-01T00:00:00" }

/-- The store after ingesting `demoData` into an empty table. -/
def demoStore : List ComplaintRec := (add_complaint [] demoData).2

/-- The row `add_complaint` creates for `demoData`. -/
def demoRec : ComplaintRec :=
  { id := "COMP-000001", name := "Alice", email := "a@b.c", contact_number := "",
    order_id := "ORD-77", product_name := "Lamp", purchase_date := "",
    complaint_category := "General Inquiry",
    description := "The item did not match the photos on the site",
    photo_proof_link := "", importance_level := some .MEDIUM,
    received_at := "2024-01-01T00:00:00", processed := .PENDING,
    root_cause := none, suggested_solution := none, processed_at := none }

/-- A PENDING row used as raw material for store-level instances. -/
def blankRec (i : String) : ComplaintRec :=
  { id := i, name := "", email := "", contact_number := "", order_id := "",
    product_name := "", purchase_date := "", complaint_category := "",
    description := "", photo_proof_link := "", importance_level := some .MEDIUM,
    received_at := "", processed := .PENDING, root_cause := none,
    suggested_solution := none, processed_at := none }

/-- The analysis prompt text built for `demoRec` (its exact content is
irrelevant: only non-emptiness matters to the analyzer). -/
def demoText : String :=
  "Complaint Category: General Inquiry Product: Lamp Order ID: ORD-77 Description: The item did not match the photos on the site"

def demoRow1 : Row :=
  { name := "Bob", email := "b@c.d", contact_number := "", order_id := "ORD-90",
    product_name := "Chair", purchase_date := "", complaint_category := "Delivery Issue",
    description := "Parcel never arrived", photo_proof_link := "" }

def demoRow2 : Row :=
  { name := "Cara", email := "c@d.e", contact_number := "", order_id := "ORD-91",
    product_name := "Desk", purchase_date := "", complaint_category := "Product Issue",
    description := "Scratched surface", photo_proof_link := "" }

/-- Length of a decoded JSON list (0 on non-lists); projection used to state
length facts without equality on `Json`. -/
def arrLen : Json → Nat
  | .arr xs => xs.length
  | _ => 0

/-- Projection of a decoded JSON list of strings (decidable comparisons). -/
def getStrList : Json → Option (List String)
  | .arr xs =>
      if xs.all (fun j => match j with | .str _ => true | _ => false) then
        some (xs.filterMap (fun j => match j with | .str s => some s | _ => none))
      else none
  | _ => none

/-- The well-formed 3+3 analysis object embedded in the C5 reply text. -/
def demoInner : String :=
  "\x7b\"root_cause\": [\"1. A\", \"2. B\", \"3. C\"], \"suggested_solution\": [\"1. D\", \"2. E\", \"3. F\"]\x7d"

/-- A model reply with two JSON-like brace-delimited regions: the valid
3+3 object followed by prose and a second object. -/
def demoT5 : String :=
  "Here is my analysis " ++ demoInner ++ " and also " ++ "\x7b\"note\": \"x\"\x7d"

/-- The span `re.search(r'\{[\s\S]*\}')` actually examines in `demoT5`:
first `\x7b` through final `\x7d`, covering both regions and the prose
between them. -/
def demoT5span : String :=
  demoInner ++ " and also " ++ "\x7b\"note\": \"x\"\x7d"

/-- A long-enough non-JSON reply from which exactly one numbered point is
recoverable. -/
def demoT7 : String :=
  "The root cause is as follows: 1. Wrong item shipped and that is all I can say"

/-! Section: Claim-side rule definitions (written from the claim wording, for the
refinement comparisons) -/

/-- The importance derivation as claim C6 words it: the keyword scan runs
over the concatenation of category, description, root cause AND solution. -/
def importanceClaimRule (cat desc rc sol : String) : ImportanceLevel :=
  if critical_keywords.any (kwIn (pyLowerData (cat ++ " " ++ desc ++ " " ++ rc ++ " " ++ sol)))
    then .CRITICAL
  else if 2 ≤ high_importance_keywords.countP
      (kwIn (pyLowerData (cat ++ " " ++ desc ++ " " ++ rc ++ " " ++ sol))) then .HIGH
  else if ["safety issue", "medical device", "pharmaceutical"].contains
            (String.mk (pyLowerData cat)) then .HIGH
  else .MEDIUM

/-! Section: Helper lemmas -/

theorem startsWithL_append (n : List Char) :
    ∀ (h t : List Char), startsWithL n h = true → startsWithL n (h ++ t) = true := by
  induction n with
  | nil => intro h t _; rfl
  | cons a as ih =>
      intro h t hs
      cases h with
      | nil => cases hs
      | cons b bs =>
          simp only [startsWithL, Bool.and_eq_true] at hs
          simp only [List.cons_append, startsWithL, Bool.and_eq_true]
          exact ⟨hs.1, ih bs t hs.2⟩

theorem containsL_nil_needle : ∀ (l : List Char), containsL [] l = true := by
  intro l
  cases l with
  | nil => rfl
  | cons c cs => simp [containsL, startsWithL]

theorem containsL_append_right (n : List Char) :
    ∀ (h t : List Char), containsL n h = true → containsL n (h ++ t) = true := by
  intro h
  induction h with
  | nil =>
      intro t hc
      have hn : n = [] := by
        cases n with
        | nil => rfl
        | cons a as => simp [containsL, startsWithL] at hc
      subst hn
      simpa using containsL_nil_needle t
  | cons c cs ih =>
      intro t hc
      simp only [containsL, Bool.or_eq_true] at hc
      rcases hc with hs | hr
      · have := startsWithL_append n (c :: cs) t hs
        simp only [List.cons_append] at this ⊢
        simp [containsL, this]
      · simp only [List.cons_append]
        simp [containsL, ih t hr]

theorem kwIn_append_left (t1 t2 : List Char) (kw : String)
    (h : kwIn t1 kw = true) : kwIn (t1 ++ t2) kw = true :=
  containsL_append_right kw.data t1 t2 h

theorem pyLowerData_append (a b : String) :
    pyLowerData (a ++ b) = pyLowerData a ++ pyLowerData b := by
  simp [pyLowerData, String.data_append]

theorem find?_append_first (p : ComplaintRec → Bool) (pre : List ComplaintRec)
    (c : ComplaintRec) (post : List ComplaintRec)
    (hpre : ∀ d ∈ pre, p d = false) (hc : p c = true) :
    List.find? p (pre ++ c :: post) = some c := by
  induction pre with
  | nil => simp [List.find?, hc]
  | cons a l ih =>
      have ha : p a = false := hpre a (by simp)
      simp only [List.cons_append, List.find?, ha]
      exact ih (fun d hd => hpre d (by simp [hd]))

theorem updateFirst_append_first (p : ComplaintRec → Bool) (f : ComplaintRec → ComplaintRec)
    (pre : List ComplaintRec) (c : ComplaintRec) (post : List ComplaintRec)
    (hpre : ∀ d ∈ pre, p d = false) (hc : p c = true) :
    updateFirst p f (pre ++ c :: post) = pre ++ f c :: post := by
  induction pre with
  | nil => simp [updateFirst, hc]
  | cons a l ih =>
      have ha : p a = false := hpre a (by simp)
      have ih' := ih (fun d hd => hpre d (by simp [hd]))
      simp [updateFirst, ha, ih']

theorem foldl_max_const (n : Nat) :
    ∀ (l : List Nat) (acc : Nat), (∀ x ∈ l, x = n) → l ≠ [] → l.foldl max acc = max acc n := by
  intro l
  induction l with
  | nil => intro acc _ h; exact absurd rfl h
  | cons a t ih =>
      intro acc hall _
      have ha : a = n := hall a (by simp)
      subst ha
      cases t with
      | nil => simp [List.foldl]
      | cons b u =>
          have := ih (max acc a) (fun x hx => hall x (by simp [hx])) (by simp)
          simp only [List.foldl_cons] at this ⊢
          rw [this, Nat.max_assoc, Nat.max_self]

theorem padLoop_spec (ph : List Char) (ps : List String) (h : ps.length ≤ 3) :
    padLoop ph 3 ps = ps ++ (List.range (3 - ps.length)).map
      (fun k => String.mk (natDigits (ps.length + k + 1) ++ '.' :: ' ' :: ph)) := by
  rcases ps with _ | ⟨a, _ | ⟨b, _ | ⟨c, _ | ⟨d, tl⟩⟩⟩⟩
  · rfl
  · rfl
  · rfl
  · rfl
  · simp [List.length] at h

theorem collectPoints_length_le : ∀ (gs : List (List Char)) (acc : List String),
    acc.length ≤ 3 → (collectPoints gs acc).length ≤ 3 := by
  intro gs
  induction gs with
  | nil => intro acc h; simpa [collectPoints] using h
  | cons g gs ih =>
      intro acc h
      by_cases hlt : acc.length < 3
      · simp only [collectPoints, if_pos hlt]
        by_cases hv : pyStrip g ≠ [] ∧ (pyStrip g).length < 100
        · rw [if_pos hv]
          exact ih _ (by simp only [List.length_append, List.length_singleton]; omega)
        · rw [if_neg hv]
          exact ih _ h
      · simp only [collectPoints, if_neg hlt]
        exact ih _ h

theorem firstIdx_decomp (p : Char → Bool) :
    ∀ (cs : List Char) (i : Nat), firstIdx p cs = some i →
      ∃ a c b, cs = a ++ c :: b ∧ a.length = i ∧ (∀ x ∈ a, p x = false) ∧ p c = true := by
  intro cs
  induction cs with
  | nil => intro i h; cases h
  | cons c rest ih =>
      intro i h
      by_cases hp : p c = true
      · refine ⟨[], c, rest, by simp, ?_, by simp, hp⟩
        simp only [firstIdx, if_pos hp, Option.some.injEq] at h
        simp only [List.length_nil]
        omega
      · have hp' : p c = false := by
          cases hpc : p c
          · rfl
          · exact absurd hpc hp
        simp only [firstIdx, if_neg hp] at h
        rcases Option.map_eq_some'.mp h with ⟨j, hj, hji⟩
        rcases ih j hj with ⟨a, c', b, hcs, halen, hamem, hc'⟩
        refine ⟨c :: a, c', b, by simp [hcs], by simp only [List.length_cons, halen]; omega, ?_, hc'⟩
        intro x hx
        rcases List.mem_cons.mp hx with hxc | hxa
        · subst hxc; exact hp'
        · exact hamem x hxa

theorem greedySpan_decomp (cs span : List Char) (h : greedySpan cs = some span) :
    ∃ a mid b, cs = a ++ span ++ b
      ∧ (∀ ch ∈ a, (ch == openBrace) = false)
      ∧ (∀ ch ∈ b, (ch == closeBrace) = false)
      ∧ span = openBrace :: mid ++ [closeBrace] := by
  unfold greedySpan at h
  rcases hfo : firstIdx (fun c => c == openBrace) cs with _ | i
  · rw [hfo] at h; cases h
  rcases hfc : firstIdx (fun c => c == closeBrace) cs.reverse with _ | k
  · rw [hfo, hfc] at h; cases h
  rw [hfo, hfc] at h
  dsimp only [Option.map_some'] at h
  by_cases hij : i < cs.length - 1 - k
  case neg => rw [if_neg hij] at h; cases h
  rw [if_pos hij] at h
  rcases firstIdx_decomp _ cs i hfo with ⟨a1, copen, b1, hcs1, hlen1, ha1, hcopen⟩
  rcases firstIdx_decomp _ cs.reverse k hfc with ⟨a2, cclose, b2, hrev, hlen2, ha2, hcclose⟩
  have hcopen' : copen = openBrace := eq_of_beq hcopen
  have hcclose' : cclose = closeBrace := eq_of_beq hcclose
  subst hcopen' hcclose'
  set j := cs.length - 1 - k with hjdef
  have hcs2 : cs = b2.reverse ++ closeBrace :: a2.reverse := by
    have := congrArg List.reverse hrev
    simpa [List.reverse_append] using this
  have hc : cs.length = a2.length + 1 + b2.length := by
    have := congrArg List.length hrev
    simp [List.length_append, List.length_reverse] at this
    omega
  have hlenj : b2.length = j := by omega
  have hi1j : i + 1 ≤ j := hij
  have hdropi : List.drop i cs = openBrace :: b1 := by
    rw [hcs1, ← hlen1]
    exact List.drop_left a1 (openBrace :: b1)
  have hb1 : b1 = List.drop (i + 1) b2.reverse ++ closeBrace :: a2.reverse := by
    have hdrop1 : List.drop (i + 1) cs = b1 := by
      rw [hcs1]
      have he : i + 1 = a1.length + 1 := by omega
      rw [he]
      simpa using @List.drop_append Char a1 (openBrace :: b1) 1
    have hdrop2 : List.drop (i + 1) cs =
        List.drop (i + 1) b2.reverse ++ closeBrace :: a2.reverse := by
      rw [hcs2]
      exact List.drop_append_of_le_length (by simp [List.length_reverse]; omega)
    rw [← hdrop1, hdrop2]
  have hmidlen : (List.drop (i + 1) b2.reverse).length = j - (i + 1) := by
    simp [List.length_drop, List.length_reverse, hlenj]
  have hspan : span = openBrace :: (List.drop (i + 1) b2.reverse ++ [closeBrace]) := by
    have hsp : List.take (j - i + 1) (List.drop i cs) = span := Option.some.inj h
    rw [← hsp, hdropi, hb1]
    have h1 : j - i + 1 = ((List.drop (i + 1) b2.reverse).length + 1) + 1 := by omega
    rw [h1, List.take_succ_cons]
    have h2 : (List.drop (i + 1) b2.reverse).length + 1 =
        (List.drop (i + 1) b2.reverse).length + 1 := rfl
    rw [List.take_append]
    simp
  refine ⟨a1, List.drop (i + 1) b2.reverse, a2.reverse, ?_, ha1, ?_, hspan⟩
  · rw [hspan, hcs1, hb1]
    simp
  · intro ch hch
    exact ha2 ch (List.mem_reverse.mp hch)

theorem isArr3_arrLen (j : Json) (h : isArr3 j = true) : arrLen j = 3 := by
  cases j <;> simp [isArr3, arrLen] at h ⊢
  exact h

theorem map_enum_fst {α β : Type} (rows : List α) (g : Nat → β) (f : Nat × α → β)
    (hf : ∀ p, f p = g p.1) : rows.enum.map f = (List.range rows.length).map g := by
  calc rows.enum.map f = rows.enum.map (g ∘ Prod.fst) := by
        apply List.map_congr_left; intro p _; exact hf p
    _ = (rows.enum.map Prod.fst).map g := by rw [List.map_map]
    _ = (List.range rows.length).map g := by rw [List.enum_map_fst]

/-! Section: Claim theorems -/

/-- Claim C1 (status: code_bug, evaluation of the code at the failing
input).  `add_complaint` called twice with the same dict returns the
boolean `True` and then `False` — never the `"added"` / `"skipped"`
outcomes its caller `load_complaints_data` tests for, so the caller logs
both the successful insert and the duplicate as "Failed to add complaint".
The duplicate is detected by `id` only (the `order_id` natural key is never
consulted), and the second call ends in the update branch's commit error
(raw ISO string into the `DateTime` column), indistinguishable from a
genuine persistence failure; the claim's `"skipped"` outcome is
unreachable.  The store afterwards holds exactly one record for the key. -/
theorem C1_add_complaint_code_eval :
    add_complaint [] demoData = (true, [demoRec])
    ∧ add_complaint demoStore demoData = (false, demoStore)
    ∧ demoStore = [demoRec]
    ∧ demoStore.countP (fun c => c.order_id == "ORD-77") = 1 := by
  refine ⟨by decide, by decide, by decide, rfl⟩

/-- Claim C2 (counterexample): `update_complaint_analysis` on an existing
PENDING record whose solution text fires the auto-close rule returns `True`
but sets the status to CLOSED, not SUCCESSFUL as the claim states. -/
theorem C2_counterexample :
    (update_complaint_analysis demoStore "COMP-000001" "1. Cause"
        "1. The unit was replaced and the customer was refunded" none 5).1 = true
    ∧ (update_complaint_analysis demoStore "COMP-000001" "1. Cause"
        "1. The unit was replaced and the customer was refunded" none 5).2.map
        (fun c => c.processed) = [.CLOSED]
    ∧ ¬ (update_complaint_analysis demoStore "COMP-000001" "1. Cause"
        "1. The unit was replaced and the customer was refunded" none 5).2.map
        (fun c => c.processed) = [.SUCCESSFUL] := by
  refine ⟨rfl, rfl, by decide⟩

/-- Claim C2 as amended: on the first record carrying the requested id,
`update_complaint_analysis` sets exactly `root_cause`, `suggested_solution`,
`processed_at`, `importance_level` (derived when not supplied) and the
status — SUCCESSFUL unless the auto-close keyword rule fires on the
category/solution text, in which case CLOSED — changes no other field and no
other record, and returns true; with an id not present it returns false and
mutates nothing. -/
theorem C2_update_complaint_analysis_amended (pre post : List ComplaintRec)
    (c : ComplaintRec) (rc sol : String) (now : Nat)
    (hpre : ∀ d ∈ pre, (d.id == c.id) = false) :
    update_complaint_analysis (pre ++ c :: post) c.id rc sol none now =
      (true, pre ++
        { c with root_cause := some rc, suggested_solution := some sol,
                 processed := if should_auto_close c.complaint_category c.description rc sol
                              then .CLOSED else .SUCCESSFUL,
                 processed_at := some now,
                 importance_level :=
                   some (determine_importance_level c.complaint_category c.description rc sol) }
        :: post)
    ∧ ∀ (store : List ComplaintRec) (cid : String) (imp : Option ImpParam),
        store.find? (fun d => d.id == cid) = none →
        update_complaint_analysis store cid rc sol imp now = (false, store) := by
  constructor
  · have hfind := find?_append_first (fun d => d.id == c.id) pre c post hpre (by simp)
    have hupd := updateFirst_append_first (fun d => d.id == c.id)
      (fun d => { d with root_cause := some rc, suggested_solution := some sol,
                         processed := if should_auto_close c.complaint_category c.description rc sol
                                      then .CLOSED else .SUCCESSFUL,
                         processed_at := some now,
                         importance_level :=
                           some (determine_importance_level c.complaint_category c.description rc sol) })
      pre c post hpre (by simp)
    simp only [update_complaint_analysis, hfind, hupd]
  · intro store cid imp hnone
    simp only [update_complaint_analysis, hnone]

theorem C2_update_complaint_analysis_amended_witness :
    update_complaint_analysis [demoRec] "COMP-000001" "1. Cause"
        "1. The unit was replaced and the customer was refunded" none 5 =
      (true, [{ demoRec with
                root_cause := some "1. Cause",
                suggested_solution := some "1. The unit was replaced and the customer was refunded",
                processed := .CLOSED, processed_at := some 5,
                importance_level := some .MEDIUM }]) :=
  (C2_update_complaint_analysis_amended [] [] demoRec "1. Cause"
    "1. The unit was replaced and the customer was refunded" 5
    (by intro d hd; cases hd)).1

/-- Claim C3 (status: code_bug, evaluation of the code at the failing
input).  When every analyzer attempt yields a malformed reply (here: content
below the length threshold), `analyze_complaint` returns the degraded
`"Failed after 3 attempts"` dict without raising; the orchestrator's
`"API Error" in root_cause` guard does not fire on it, so the processing
loop stores it through `update_complaint_analysis` and the PENDING complaint
ends SUCCESSFUL — not FAILED as the claim states. -/
theorem C3_degraded_result_marked_successful :
    apiErrorIn ((analyze_complaint (fun _ => .ok "short") demoText).1).root_cause = false
    ∧ ((analyze_complaint (fun _ => .ok "short") demoText).1).root_cause =
        .str "Failed after 3 attempts"
    ∧ (process_complaints (fun _ => (analyze_complaint (fun _ => .ok "short") demoText).1)
          1 demoStore).map (fun c => (c.processed, c.root_cause, c.suggested_solution)) =
        [(.SUCCESSFUL, some "Failed after 3 attempts", some "Last error: Empty response")]
    ∧ ProcessStatus.SUCCESSFUL ≠ ProcessStatus.FAILED :=
  ⟨rfl, rfl, rfl, by decide⟩

/-- Claim C4 (confirmed; the store's `get_next_complaint_id` itself is
modelled from the spec, see `compSuffix`): the next id is 1-based on an
empty store or when no id parses against the `COMP-######` pattern,
malformed ids are skipped rather than fatal, a store containing
`COMP-000007` among only non-conforming ids yields `COMP-000008`, and the
ingestion mapper derives every id of a batch consecutively from the number
parsed back out of this operation. -/
theorem C4_next_id_and_batch_numbering (store : List ComplaintRec) :
    get_next_complaint_id ([] : List ComplaintRec) = "COMP-000001"
    ∧ ((∀ c ∈ store, compSuffix c.id = none) → get_next_complaint_id store = "COMP-000001")
    ∧ ((∃ c ∈ store, c.id = "COMP-000007") →
        (∀ c ∈ store, c.id = "COMP-000007" ∨ compSuffix c.id = none) →
        get_next_complaint_id store = "COMP-000008")
    ∧ ∀ (rows : List Row) (nowIso : String),
        (get_complaints_data store rows nowIso).map (fun d => d.id) =
          (List.range rows.length).map (fun i => compFormat (startingNumber store + i)) := by
  refine ⟨rfl, ?_, ?_, ?_⟩
  · intro h
    simp only [get_next_complaint_id, List.filterMap_eq_nil_iff.mpr h]
    rfl
  · rintro ⟨c, hc, hcid⟩ hall
    have h7 : (7 : Nat) ∈ store.filterMap (fun c => compSuffix c.id) := by
      refine List.mem_filterMap.mpr ⟨c, hc, ?_⟩
      rw [hcid]; rfl
    have hconst : ∀ x ∈ store.filterMap (fun c => compSuffix c.id), x = 7 := by
      intro x hx
      rcases List.mem_filterMap.mp hx with ⟨d, hd, hdx⟩
      rcases hall d hd with h | h
      · rw [h] at hdx
        have h7eq : compSuffix "COMP-000007" = some 7 := rfl
        rw [h7eq] at hdx
        exact (Option.some.inj hdx).symm
      · rw [h] at hdx; cases hdx
    have hfold := foldl_max_const 7 (store.filterMap (fun c => compSuffix c.id)) 0 hconst
      (List.ne_nil_of_mem h7)
    simp only [get_next_complaint_id, hfold]
    rfl
  · intro rows nowIso
    unfold get_complaints_data
    rw [List.map_map]
    exact map_enum_fst rows _ _ (fun p => rfl)

theorem C4_next_id_and_batch_numbering_witness :
    get_next_complaint_id [blankRec "COMP-000007", blankRec "weird"] = "COMP-000008"
    ∧ (get_complaints_data [blankRec "COMP-000007", blankRec "weird"]
        [demoRow1, demoRow2] "2024-01-02T00:00:00").map (fun d => d.id) =
      ["COMP-000008", "COMP-000009"] := by
  have h := C4_next_id_and_batch_numbering [blankRec "COMP-000007", blankRec "weird"]
  refine ⟨h.2.2.1 (by decide) (by decide), ?_⟩
  rw [h.2.2.2 [demoRow1, demoRow2] "2024-01-02T00:00:00"]
  decide

/-- Claim C6 (counterexample): the claim's rule scans the category text for
keywords, but `_determine_importance_level` builds its scanned text from
description, root cause and solution only — a category of `"recall"` with
every other field empty is CRITICAL under the claim's rule yet MEDIUM under
the code. -/
theorem C6_counterexample :
    importanceClaimRule "recall" "" "" "" = .CRITICAL
    ∧ determine_importance_level "recall" "" "" "" = .MEDIUM
    ∧ ImportanceLevel.CRITICAL ≠ ImportanceLevel.MEDIUM :=
  ⟨rfl, rfl, by decide⟩

/-- Claim C6 as amended: the derived level scans the concatenation of
description, root cause and solution case-insensitively (the category is
consulted only against the fixed high-risk category set, not scanned for
keywords): any critical keyword yields CRITICAL, checked first; otherwise 2
or more high-keyword matches yield HIGH; otherwise a category in the fixed
set yields HIGH; otherwise MEDIUM; LOW is never derived; and a description
containing "recall" (for instance together with "toxic") yields CRITICAL
whatever the category and with the other scanned fields empty. -/
theorem C6_importance_derivation_amended (cat desc rc sol : String) :
    determine_importance_level cat desc rc sol ≠ .LOW
    ∧ (critical_keywords.any (kwIn (textToCheck desc rc sol)) = true →
        determine_importance_level cat desc rc sol = .CRITICAL)
    ∧ (critical_keywords.any (kwIn (textToCheck desc rc sol)) = false →
        2 ≤ high_importance_keywords.countP (kwIn (textToCheck desc rc sol)) →
        determine_importance_level cat desc rc sol = .HIGH)
    ∧ (critical_keywords.any (kwIn (textToCheck desc rc sol)) = false →
        high_importance_keywords.countP (kwIn (textToCheck desc rc sol)) < 2 →
        ["safety issue", "medical device", "pharmaceutical"].contains
          (String.mk (pyLowerData cat)) = true →
        determine_importance_level cat desc rc sol = .HIGH)
    ∧ (critical_keywords.any (kwIn (textToCheck desc rc sol)) = false →
        high_importance_keywords.countP (kwIn (textToCheck desc rc sol)) < 2 →
        ["safety issue", "medical device", "pharmaceutical"].contains
          (String.mk (pyLowerData cat)) = false →
        determine_importance_level cat desc rc sol = .MEDIUM)
    ∧ (∀ cat2 : String,
        ["safety issue", "medical device", "pharmaceutical"].contains
            (String.mk (pyLowerData cat)) =
          ["safety issue", "medical device", "pharmaceutical"].contains
            (String.mk (pyLowerData cat2)) →
        determine_importance_level cat desc rc sol =
          determine_importance_level cat2 desc rc sol)
    ∧ (kwIn (pyLowerData desc) "recall" = true →
        determine_importance_level cat desc "" "" = .CRITICAL) := by
  refine ⟨?_, ?_, ?_, ?_, ?_, ?_, ?_⟩
  · unfold determine_importance_level
    by_cases h1 : critical_keywords.any (kwIn (textToCheck desc rc sol)) = true
    · rw [if_pos h1]; decide
    · rw [if_neg h1]
      by_cases h2 : 2 ≤ high_importance_keywords.countP (kwIn (textToCheck desc rc sol))
      · rw [if_pos h2]; decide
      · rw [if_neg h2]
        by_cases h3 : ["safety issue", "medical device", "pharmaceutical"].contains
            (String.mk (pyLowerData cat)) = true
        · rw [if_pos h3]; decide
        · rw [if_neg h3]; decide
  · intro h
    unfold determine_importance_level
    rw [if_pos h]
  · intro h1 h2
    unfold determine_importance_level
    rw [if_neg (by rw [h1]; decide), if_pos h2]
  · intro h1 h2 h3
    unfold determine_importance_level
    rw [if_neg (by rw [h1]; decide), if_neg (Nat.not_le.mpr h2), if_pos h3]
  · intro h1 h2 h3
    unfold determine_importance_level
    rw [if_neg (by rw [h1]; decide), if_neg (Nat.not_le.mpr h2), if_neg (by rw [h3]; decide)]
  · intro cat2 hc
    unfold determine_importance_level
    rw [hc]
  · intro h
    have ht : textToCheck desc "" "" = pyLowerData desc ++ pyLowerData (" " ++ "" ++ " " ++ "") := by
      simp [textToCheck, pyLowerData, String.data_append]
    have hin : kwIn (textToCheck desc "" "") "recall" = true := by
      rw [ht]; exact kwIn_append_left _ _ _ h
    have hany : critical_keywords.any (kwIn (textToCheck desc "" "")) = true :=
      List.any_eq_true.mpr ⟨"recall", by decide, hin⟩
    unfold determine_importance_level
    rw [if_pos hany]

theorem C6_importance_derivation_amended_witness :
    determine_importance_level "Order Issue" "Please recall this toxic product" "" "" =
      .CRITICAL :=
  (C6_importance_derivation_amended "Order Issue" "Please recall this toxic product"
    "" "").2.2.2.2.2.2 (by decide)

set_option maxRecDepth 4000 in
/-- Claim C5 (counterexample): in a reply embedding two brace-delimited
regions — a valid 3+3 analysis object followed by a second object — the
smallest enclosing object with both keys parses and validates, yet the
normalizer does not return it: the greedy `re.search(r'\{[\s\S]*\}')` span
(first `\x7b` to final `\x7d`) fails `json.loads`, and extraction falls back
to the numbered-point regex over the whole text. -/
theorem C5_counterexample :
    jsonLoads demoInner.data =
      some (.obj [("root_cause", .arr [.str "1. A", .str "2. B", .str "3. C"]),
                  ("suggested_solution", .arr [.str "1. D", .str "2. E", .str "3. F"])])
    ∧ containsL demoInner.data demoT5.data = true
    ∧ greedySpan demoT5.data = some demoT5span.data
    ∧ jsonLoads demoT5span.data = none
    ∧ getStrList (extract_json_from_text demoT5).root_cause =
        some ["1. A\", \"", "2. B\", \"", "3. C\"], \"suggested_solution\": [\""]
    ∧ ¬ getStrList (extract_json_from_text demoT5).root_cause =
        some ["1. A", "2. B", "3. C"] :=
  ⟨rfl, by decide, rfl, rfl, rfl, by decide⟩

/-- Claim C5 as amended: the normalizer examines exactly one JSON candidate,
the largest brace-delimited span of the text (first `\x7b` of the whole text
through its final `\x7d`, with no earlier opening brace and no later closing
brace); it returns the decoded span only when it is an object carrying both
expected keys with exactly-3-item list values, and otherwise — smaller
embedded objects are never tried — falls back to numbered-point extraction
padded to three entries per field. -/
theorem C5_extraction_amended (text : String)
    (hlen : 20 ≤ (pyStrip text.data).length) :
    (∀ d, jsonAttempt text = some d → extract_json_from_text text = d)
    ∧ (jsonAttempt text = none →
        extract_json_from_text text =
          { root_cause :=
              .arr ((padLoop "Analysis incomplete".data 3 (extractRootPoints text)).map .str),
            suggested_solution :=
              .arr ((padLoop "Solution pending".data 3 (extractSolutionPoints text)).map .str),
            error := none })
    ∧ (∀ span, greedySpan text.data = some span →
        ∃ a mid b, text.data = a ++ span ++ b
          ∧ (∀ ch ∈ a, (ch == openBrace) = false)
          ∧ (∀ ch ∈ b, (ch == closeBrace) = false)
          ∧ span = openBrace :: mid ++ [closeBrace])
    ∧ (∀ d, jsonAttempt text = some d →
        arrLen d.root_cause = 3 ∧ arrLen d.suggested_solution = 3) := by
  have hnot : ¬ (pyStrip text.data).length < 20 := Nat.not_lt.mpr hlen
  refine ⟨?_, ?_, ?_, ?_⟩
  · intro d hd
    unfold extract_json_from_text
    rw [if_neg hnot, hd]
  · intro hd
    unfold extract_json_from_text
    rw [if_neg hnot, hd]
  · intro span hspan
    exact greedySpan_decomp text.data span hspan
  · intro d hd
    have hshape : isArr3 d.root_cause = true ∧ isArr3 d.suggested_solution = true := by
      unfold jsonAttempt at hd
      split at hd
      · cases hd
      · split at hd
        · split at hd
          · split at hd
            · rename_i hv
              cases hd
              simpa [Bool.and_eq_true] using hv
            · cases hd
          · cases hd
        · cases hd
    exact ⟨isArr3_arrLen _ hshape.1, isArr3_arrLen _ hshape.2⟩

theorem C5_extraction_amended_witness :
    extract_json_from_text ("padding padding " ++ demoInner) =
      { root_cause := .arr [.str "1. A", .str "2. B", .str "3. C"],
        suggested_solution := .arr [.str "1. D", .str "2. E", .str "3. F"],
        error := none } :=
  (C5_extraction_amended ("padding padding " ++ demoInner) (by decide)).1 _ rfl

/-- Claim C7 (confirmed): for an input at or above the minimum-length
threshold on which the JSON branch fails and fewer than 3 points are
recovered, each returned field is a list of length exactly 3 whose prefix is
the recovered numbered points in match order and whose trailing entries are
exactly the numbered placeholders `N. Analysis incomplete` /
`N. Solution pending`. -/
theorem C7_placeholder_padding (text : String)
    (hlen : 20 ≤ (pyStrip text.data).length)
    (hjson : jsonAttempt text = none)
    (hlt : (extractRootPoints text).length < 3) :
    (extract_json_from_text text).root_cause =
      .arr (((extractRootPoints text) ++
        (List.range (3 - (extractRootPoints text).length)).map
          (fun k => String.mk (natDigits ((extractRootPoints text).length + k + 1)
            ++ '.' :: ' ' :: "Analysis incomplete".data))).map .str)
    ∧ (extract_json_from_text text).suggested_solution =
      .arr (((extractSolutionPoints text) ++
        (List.range (3 - (extractSolutionPoints text).length)).map
          (fun k => String.mk (natDigits ((extractSolutionPoints text).length + k + 1)
            ++ '.' :: ' ' :: "Solution pending".data))).map .str)
    ∧ arrLen (extract_json_from_text text).root_cause = 3
    ∧ arrLen (extract_json_from_text text).suggested_solution = 3 := by
  have hnot : ¬ (pyStrip text.data).length < 20 := Nat.not_lt.mpr hlen
  have hsol_eq : extractSolutionPoints text = extractRootPoints text := rfl
  have hle : (extractRootPoints text).length ≤ 3 := Nat.le_of_lt (by omega)
  have hbody : extract_json_from_text text =
      { root_cause :=
          .arr ((padLoop "Analysis incomplete".data 3 (extractRootPoints text)).map .str),
        suggested_solution :=
          .arr ((padLoop "Solution pending".data 3 (extractSolutionPoints text)).map .str),
        error := none } := by
    unfold extract_json_from_text
    rw [if_neg hnot, hjson]
  refine ⟨?_, ?_, ?_, ?_⟩
  · rw [hbody]
    simp only
    rw [padLoop_spec _ _ hle]
  · rw [hbody]
    simp only
    rw [hsol_eq, padLoop_spec _ _ hle]
  · rw [hbody]
    simp only [arrLen]
    rw [padLoop_spec _ _ hle]
    simp only [List.length_map, List.length_append, List.length_range]
    omega
  · rw [hbody]
    simp only [arrLen]
    rw [hsol_eq, padLoop_spec _ _ hle]
    simp only [List.length_map, List.length_append, List.length_range]
    omega

theorem C7_placeholder_padding_witness :
    (extract_json_from_text demoT7).root_cause =
      .arr [.str "1. Wrong item shipped and that is all I can say",
            .str "2. Analysis incomplete", .str "3. Analysis incomplete"]
    ∧ (extract_json_from_text demoT7).suggested_solution =
      .arr [.str "1. Wrong item shipped and that is all I can say",
            .str "2. Solution pending", .str "3. Solution pending"] := by
  have h := C7_placeholder_padding demoT7 (by decide) rfl (by decide)
  exact ⟨h.1, h.2.1⟩

/-- Claim C10 (confirmed): whenever extraction falls through to the regex
fallback, both fields are built by the same numbered-point pattern applied
to the whole input, so there is a single recovered point list shared by both
fields; they differ only in their placeholder padding. -/
theorem C10_shared_recovered_points (text : String)
    (hlen : 20 ≤ (pyStrip text.data).length)
    (hjson : jsonAttempt text = none) :
    ∃ pts : List String, pts.length ≤ 3
      ∧ extractRootPoints text = pts
      ∧ extractSolutionPoints text = pts
      ∧ (extract_json_from_text text).root_cause =
          .arr ((pts ++ (List.range (3 - pts.length)).map
            (fun k => String.mk (natDigits (pts.length + k + 1)
              ++ '.' :: ' ' :: "Analysis incomplete".data))).map .str)
      ∧ (extract_json_from_text text).suggested_solution =
          .arr ((pts ++ (List.range (3 - pts.length)).map
            (fun k => String.mk (natDigits (pts.length + k + 1)
              ++ '.' :: ' ' :: "Solution pending".data))).map .str) := by
  have hnot : ¬ (pyStrip text.data).length < 20 := Nat.not_lt.mpr hlen
  have hle : (extractRootPoints text).length ≤ 3 :=
    collectPoints_length_le _ [] (by simp)
  have hbody : extract_json_from_text text =
      { root_cause :=
          .arr ((padLoop "Analysis incomplete".data 3 (extractRootPoints text)).map .str),
        suggested_solution :=
          .arr ((padLoop "Solution pending".data 3 (extractSolutionPoints text)).map .str),
        error := none } := by
    unfold extract_json_from_text
    rw [if_neg hnot, hjson]
  refine ⟨extractRootPoints text, hle, rfl, rfl, ?_, ?_⟩
  · rw [hbody]
    simp only
    rw [padLoop_spec _ _ hle]
  · rw [hbody]
    simp only
    rw [show extractSolutionPoints text = extractRootPoints text from rfl,
        padLoop_spec _ _ hle]

theorem C10_shared_recovered_points_witness :
    ∃ pts : List String, pts.length ≤ 3
      ∧ extractRootPoints demoT7 = pts
      ∧ extractSolutionPoints demoT7 = pts
      ∧ (extract_json_from_text demoT7).root_cause =
          .arr ((pts ++ (List.range (3 - pts.length)).map
            (fun k => String.mk (natDigits (pts.length + k + 1)
              ++ '.' :: ' ' :: "Analysis incomplete".data))).map .str)
      ∧ (extract_json_from_text demoT7).suggested_solution =
          .arr ((pts ++ (List.range (3 - pts.length)).map
            (fun k => String.mk (natDigits (pts.length + k + 1)
              ++ '.' :: ' ' :: "Solution pending".data))).map .str) :=
  C10_shared_recovered_points demoT7 (by decide) rfl

theorem analyzeAux_calls_le (env : Nat → Attempt) :
    ∀ (n i : Nat) (last : Option String), (analyzeAux env i n last).2 ≤ n := by
  intro n
  induction n with
  | zero => intro i last; simp [analyzeAux]
  | succ n ih =>
      intro i last
      cases h : attemptStep (env i) with
      | ok r => simp [analyzeAux, h]
      | error e =>
          simp only [analyzeAux, h]
          have := ih (i + 1) (some e)
          omega

theorem beq_id_false_of_ne {x y : String} (h : x ≠ y) : (x == y) = false :=
  beq_eq_false_iff_ne.mpr h

theorem find?_updateFirst_ne (x cid : String) (hx : x ≠ cid)
    (f : ComplaintRec → ComplaintRec) (hf : ∀ c, (f c).id = c.id) :
    ∀ l, List.find? (fun c => c.id == x) (updateFirst (fun c => c.id == cid) f l) =
      List.find? (fun c => c.id == x) l := by
  intro l
  induction l with
  | nil => rfl
  | cons a t ih =>
      by_cases hp : (a.id == cid) = true
      · simp only [updateFirst, if_pos hp]
        have haid : a.id = cid := eq_of_beq hp
        have hax : (a.id == x) = false := by
          rw [haid]
          exact beq_id_false_of_ne (fun h => hx h.symm)
        have hfax : ((f a).id == x) = false := by rw [hf a]; exact hax
        simp [List.find?, hax, hfax]
      · have hp' : (a.id == cid) = false := by
          cases h2 : (a.id == cid)
          · rfl
          · exact absurd h2 hp
        simp only [updateFirst, hp', Bool.false_eq_true, if_false]
        cases hax : (a.id == x) with
        | true => simp [List.find?, hax]
        | false => simp [List.find?, hax, ih]

theorem find?_update_analysis_ne (x cid : String) (hx : x ≠ cid)
    (store : List ComplaintRec) (rc sol : String) (imp : Option ImpParam) (now : Nat) :
    List.find? (fun c => c.id == x) (update_complaint_analysis store cid rc sol imp now).2 =
      List.find? (fun c => c.id == x) store := by
  unfold update_complaint_analysis
  cases h : store.find? (fun c => c.id == cid) with
  | none => rfl
  | some c0 =>
      dsimp only
      apply find?_updateFirst_ne x cid hx
      intro c
      rfl

theorem find?_mark_failed_ne (x cid : String) (hx : x ≠ cid)
    (store : List ComplaintRec) (msg : String) (now : Nat) :
    List.find? (fun c => c.id == x) (mark_complaint_failed store cid msg now).2 =
      List.find? (fun c => c.id == x) store := by
  unfold mark_complaint_failed
  cases h : store.find? (fun c => c.id == cid) with
  | none => rfl
  | some c0 =>
      dsimp only
      apply find?_updateFirst_ne x cid hx
      intro c
      rfl

theorem find?_processOne_ne (x cid : String) (hx : x ≠ cid)
    (now : Nat) (r : AnalyzeResult) (store : List ComplaintRec) :
    List.find? (fun c => c.id == x) (processOne now r cid store) =
      List.find? (fun c => c.id == x) store := by
  unfold processOne
  by_cases hapi : apiErrorIn r.root_cause = true
  · rw [if_pos hapi]
    exact find?_mark_failed_ne x cid hx store _ now
  · rw [if_neg hapi]
    cases joinVal r.root_cause with
    | none => exact find?_mark_failed_ne x cid hx store _ now
    | some rc =>
        cases joinVal r.suggested_solution with
        | none => exact find?_mark_failed_ne x cid hx store _ now
        | some sol => exact find?_update_analysis_ne x cid hx store rc sol none now

theorem find?_fold_processOne (x : String) (now : Nat) (envr : String → AnalyzeResult) :
    ∀ (sel : List ComplaintRec), (∀ d ∈ sel, d.id ≠ x) → ∀ store,
      List.find? (fun c => c.id == x)
        (sel.foldl (fun st c => processOne now (envr c.id) c.id st) store) =
      List.find? (fun c => c.id == x) store := by
  intro sel
  induction sel with
  | nil => intro _ store; rfl
  | cons d ds ih =>
      intro hsel store
      simp only [List.foldl_cons]
      rw [ih (fun e he => hsel e (by simp [he]))]
      exact find?_processOne_ne x d.id (fun h => hsel d (by simp) h.symm) now (envr d.id) store

theorem find?_map_pres (g : ComplaintRec → ComplaintRec) (hg : ∀ r, (g r).id = r.id)
    (x : String) : ∀ l : List ComplaintRec,
    List.find? (fun r => r.id == x) (l.map g) =
      Option.map g (List.find? (fun r => r.id == x) l) := by
  intro l
  induction l with
  | nil => rfl
  | cons a t ih =>
      cases hax : (a.id == x) with
      | true =>
          have : ((g a).id == x) = true := by rw [hg a]; exact hax
          simp [List.find?, hax, this]
      | false =>
          have : ((g a).id == x) = false := by rw [hg a]; exact hax
          simp [List.find?, hax, this, ih]

/-- Claim C8 (confirmed): for any non-empty complaint text the analyzer
makes at most 3 outbound calls; the retry triggers are exactly a transport
failure, a non-success status, a failed envelope read, an empty reply body,
or an extraction result carrying the error marker; the first non-retrying
attempt's result is returned with the corresponding call count; and when all
three attempts trigger retries, the returned dict (no exception) states the
attempt count in `root_cause`, embeds the last observed error in
`suggested_solution`, and leaves `importance_level` at "Medium". -/
theorem C8_retry_and_exhaustion (env : Nat → Attempt) (text : String)
    (hne : ¬ pyStrip text.data = []) :
    (analyze_complaint env text).2 ≤ 3
    ∧ (∀ r0, attemptStep (env 0) = .ok r0 → analyze_complaint env text = (r0, 1))
    ∧ (∀ e0 r1, attemptStep (env 0) = .error e0 → attemptStep (env 1) = .ok r1 →
        analyze_complaint env text = (r1, 2))
    ∧ (∀ e0 e1 r2, attemptStep (env 0) = .error e0 → attemptStep (env 1) = .error e1 →
        attemptStep (env 2) = .ok r2 → analyze_complaint env text = (r2, 3))
    ∧ (∀ e0 e1 e2, attemptStep (env 0) = .error e0 → attemptStep (env 1) = .error e1 →
        attemptStep (env 2) = .error e2 →
        analyze_complaint env text =
          ({ root_cause := .str "Failed after 3 attempts",
             suggested_solution := .str (String.mk ("Last error: ".data ++ e2.data)),
             importance_level := some "Medium", error := none }, 3))
    ∧ (∀ m, attemptStep (.transportError m) =
        .error (String.mk ("System Error: ".data ++ m.data)))
    ∧ (∀ code detail, attemptStep (.httpError code detail) =
        .error (String.mk ("API Error: HTTP ".data ++ (natStr code).data ++ ": ".data ++ detail.data)))
    ∧ (∀ m, attemptStep (.envelopeError m) =
        .error (String.mk ("Error processing response: ".data ++ m.data)))
    ∧ (∀ c : String, c.data = [] → attemptStep (.ok c) = .error "Empty response from AI")
    ∧ (∀ c : String, ∀ e, c.data ≠ [] → (extract_json_from_text c).error = some e →
        attemptStep (.ok c) = .error e)
    ∧ (∀ c : String, c.data ≠ [] → (extract_json_from_text c).error = none →
        attemptStep (.ok c) =
          .ok { root_cause := (extract_json_from_text c).root_cause,
                suggested_solution := (extract_json_from_text c).suggested_solution,
                importance_level := none, error := none }) := by
  refine ⟨?_, ?_, ?_, ?_, ?_, fun m => rfl, fun code detail => rfl, fun m => rfl, ?_, ?_, ?_⟩
  · unfold analyze_complaint
    rw [if_neg hne]
    exact analyzeAux_calls_le env 3 0 none
  · intro r0 h0
    unfold analyze_complaint
    rw [if_neg hne]
    simp [analyzeAux, h0]
  · intro e0 r1 h0 h1
    unfold analyze_complaint
    rw [if_neg hne]
    simp [analyzeAux, h0, h1]
  · intro e0 e1 r2 h0 h1 h2
    unfold analyze_complaint
    rw [if_neg hne]
    simp [analyzeAux, h0, h1, h2]
  · intro e0 e1 e2 h0 h1 h2
    unfold analyze_complaint
    rw [if_neg hne]
    simp [analyzeAux, h0, h1, h2, exhaustedResult, showLastErr]
  · intro c hc
    simp only [attemptStep]
    rw [if_pos hc]
  · intro c e hc he
    simp only [attemptStep]
    rw [if_neg hc, he]
  · intro c hc he
    simp only [attemptStep]
    rw [if_neg hc, he]

theorem C8_retry_and_exhaustion_witness :
    analyze_complaint (fun _ => .transportError "connection refused") "The lamp is broken" =
      ({ root_cause := .str "Failed after 3 attempts",
         suggested_solution := .str "Last error: System Error: connection refused",
         importance_level := some "Medium", error := none }, 3) := by
  have h := (C8_retry_and_exhaustion (fun _ => .transportError "connection refused")
    "The lamp is broken" (by decide)).2.2.2.2.1 _ _ _ rfl rfl rfl
  exact h

/-- Claim C9 (confirmed): a CLOSED record (with ids unique, as the primary
key guarantees) is never selected by `get_unprocessed_complaints`, never
selected by the pending-and-failed loop, survives both processing loops
unchanged, and is untouched by the bulk reset, which rewrites only
SUCCESSFUL and FAILED records — the reset-to-PENDING lifecycle cannot
recover it. -/
theorem C9_closed_records_are_final (store : List ComplaintRec) (c : ComplaintRec)
    (hmem : c ∈ store) (hclosed : c.processed = .CLOSED)
    (hids : (store.map (fun r => r.id)).Nodup)
    (envr : String → AnalyzeResult) (now : Nat) :
    c ∉ get_unprocessed_complaints store
    ∧ c ∉ store.filter (fun r => r.processed == .PENDING || r.processed == .FAILED)
    ∧ List.find? (fun r => r.id == c.id) store = some c
    ∧ List.find? (fun r => r.id == c.id) (process_complaints envr now store) = some c
    ∧ List.find? (fun r => r.id == c.id)
        (process_pending_and_failed_complaints envr now store) = some c
    ∧ List.find? (fun r => r.id == c.id) (reset_processed_complaints store).1 = some c := by
  have hinj := List.inj_on_of_nodup_map hids
  have hne_of_mem : ∀ d ∈ store, d.processed ≠ .CLOSED → d.id ≠ c.id := by
    intro d hd hdst heq
    exact hdst (by rw [hinj hd hmem heq, hclosed])
  have hfind : List.find? (fun r => r.id == c.id) store = some c := by
    rcases List.append_of_mem hmem with ⟨pre, post, hsplit⟩
    subst hsplit
    have hnd : ((pre.map (fun r => r.id)) ++ c.id :: (post.map (fun r => r.id))).Nodup := by
      simpa using hids
    have hmid := List.nodup_middle.mp hnd
    have hnotin : c.id ∉ pre.map (fun r => r.id) ++ post.map (fun r => r.id) :=
      (List.nodup_cons.mp hmid).1
    refine find?_append_first _ pre c post ?_ (by simp)
    intro d hd
    refine beq_id_false_of_ne (fun heq => hnotin ?_)
    exact List.mem_append.mpr (Or.inl (heq ▸ List.mem_map_of_mem _ hd))
  refine ⟨?_, ?_, hfind, ?_, ?_, ?_⟩
  · intro hc
    rw [get_unprocessed_complaints, List.mem_filter, hclosed] at hc
    cases hc.2
  · intro hc
    rw [List.mem_filter, hclosed] at hc
    cases hc.2
  · unfold process_complaints
    rw [find?_fold_processOne c.id now envr _ ?_ store]
    · exact hfind
    · intro d hd
      rw [get_unprocessed_complaints, List.mem_filter] at hd
      exact hne_of_mem d hd.1 (fun h => by rw [h] at hd; cases hd.2)
  · unfold process_pending_and_failed_complaints
    rw [find?_fold_processOne c.id now envr _ ?_ store]
    · exact hfind
    · intro d hd
      rw [List.mem_filter] at hd
      refine hne_of_mem d hd.1 (fun h => ?_)
      rw [h] at hd
      rcases Bool.or_eq_true _ _ |>.mp hd.2 with h2 | h2 <;> cases h2
  · unfold reset_processed_complaints
    rw [find?_map_pres _ ?_ c.id store, hfind]
    · simp only [Option.map_some']
      rw [hclosed]
      rfl
    · intro r
      by_cases hr : (r.processed == ProcessStatus.SUCCESSFUL || r.processed == ProcessStatus.FAILED) = true
      · simp [hr]
      · simp [hr]

theorem C9_closed_records_are_final_witness :
    List.find? (fun r => r.id == "COMP-000009")
        (process_pending_and_failed_complaints (fun _ => emptyComplaintResult) 0
          [{ blankRec "COMP-000009" with processed := .CLOSED }, blankRec "COMP-000002"]) =
      some { blankRec "COMP-000009" with processed := .CLOSED } :=
  (C9_closed_records_are_final
    [{ blankRec "COMP-000009" with processed := .CLOSED }, blankRec "COMP-000002"]
    { blankRec "COMP-000009" with processed := .CLOSED }
    (by decide) rfl (by decide) (fun _ => emptyComplaintResult) 0).2.2.2.2.1

end EmailComplaint
